import Mathlib

/-!
Shallow embedding of the Svix Rust API client facade
(`src/rust/src/api.rs`): the configuration / region-resolution layer
(`SvixOptions`, `Svix::new`, `Svix::with_token`) and the pure
wire-parameter construction performed by the resource sub-client methods
before they hand off to the external dispatch call.  Each sub-client
method is embedded as the function from its arguments to the
wire-parameter record it passes to the operation-catalog function; the
dispatch call itself (network I/O) is external to this layer, so that
record is the method's entire observable output here.

The wire-parameter structs (`V1Period...Params`) live in the generated
`crate::apis` modules, which are not part of this source file; their
field sets are nevertheless fully determined by `api.rs`, because every
construction site uses an exhaustive Rust struct literal (no `..rest`),
so each struct below carries exactly the fields named at its
construction site in `api.rs`.  Payload model types (`ApplicationIn`,
`MessageStatus`, ...) from `crate::models` are carried opaquely by the
client, so they are embedded as opaque wrapper types.
-/

namespace SvixApi

/-- `std::time::Duration`; only `Duration::from_secs` is used by the
client, so the embedding records the length in whole seconds. -/
structure Duration where
  secs : Nat
  deriving DecidableEq, Repr

def Duration.from_secs (n : Nat) : Duration := ⟨n⟩

/-- The hyper transport handle (`HyperClient`).  Its internals are
external; the embedding keeps only a handle identity, and cloning the
handle (which shares the connection pool) preserves that identity. -/
abbrev HyperClient := Nat

/-- `CARGO_PKG_VERSION`, a compile-time constant supplied by the build
environment via `env!`; its exact value is irrelevant to every property
proved in this file. -/
def CRATE_VERSION : String := "CARGO_PKG_VERSION"

/-- Opaque payload type `models::Ordering` (list order enum). -/
structure Ordering where
  tag : Nat
  deriving DecidableEq, Repr

/-- Opaque payload type `models::MessageStatus`. -/
structure MessageStatus where
  tag : Nat
  deriving DecidableEq, Repr

/-- Opaque payload type `models::StatusCodeClass`. -/
structure StatusCodeClass where
  tag : Nat
  deriving DecidableEq, Repr

/-- Opaque payload type `models::ApplicationIn`. -/
structure ApplicationIn where
  data : Nat
  deriving DecidableEq, Repr

/-- Opaque payload type `models::ApplicationPatch`. -/
structure ApplicationPatch where
  data : Nat
  deriving DecidableEq, Repr

/-- Opaque payload type `models::EndpointIn`. -/
structure EndpointIn where
  data : Nat
  deriving DecidableEq, Repr

/-- `crate::Configuration`: the shared configuration bundle.  Its
construction sites in `api.rs` (`Svix::new`, `Svix::with_token`) use
exhaustive struct literals naming exactly these five fields. -/
structure Configuration where
  base_path : String
  user_agent : Option String
  bearer_access_token : Option String
  client : HyperClient
  timeout : Option Duration
  deriving DecidableEq, Repr

/-- `SvixOptions` (construction options of the client facade). -/
structure SvixOptions where
  debug : Bool
  server_url : Option String
  timeout : Option Duration
  deriving DecidableEq, Repr

/-- `impl Default for SvixOptions`: debug off, no server-URL override,
timeout 15 seconds. -/
def SvixOptions.default : SvixOptions :=
  { debug := false
    server_url := none
    timeout := some (Duration.from_secs 15) }

/-- The `Svix` client facade: an `Arc`-shared configuration plus the
optional explicit server-URL override. -/
structure Svix where
  cfg : Configuration
  server_url : Option String
  deriving DecidableEq, Repr

/-- Rust `str::split` with a single-character pattern, acting on the
character list: the chunks between occurrences of `c`, in order.  As in
Rust, the result is always nonempty, the empty string splits to `[[]]`,
and adjacent or edge separators produce empty chunks. -/
def splitChar (c : Char) : List Char → List (List Char)
  | [] => [[]]
  | ch :: rest =>
    if ch = c then [] :: splitChar c rest
    else
      match splitChar c rest with
      | [] => [[ch]]
      | s :: ss => (ch :: s) :: ss

/-- `s.split(c)` for a string `s` and a single-character pattern `c`,
collected into a list of strings (Rust returns a lazy iterator; only its
`.last()` is consumed by `with_token`). -/
def stringSplit (s : String) (c : Char) : List String :=
  (splitChar c s.data).map List.asString

/-- `Svix::with_token`: builds a new facade from `self` and a new token.
The base path is the pinned override if any, otherwise derived from the
last `.`-separated segment of the token; every other configuration field
is carried over from `self`, including the transport handle (`client`
clone shares the handle). -/
def Svix.with_token (self : Svix) (token : String) : Svix :=
  let base_path := self.server_url.getD
    (match (stringSplit token '.').getLast? with
     | some "us" => "https://api.us.svix.com"
     | some "eu" => "https://api.eu.svix.com"
     | some "in" => "https://api.in.svix.com"
     | _ => "https://api.svix.com")
  { cfg :=
      { base_path := base_path
        user_agent := self.cfg.user_agent
        bearer_access_token := some token
        client := self.cfg.client
        timeout := self.cfg.timeout }
    server_url := self.server_url }

/-- `Svix::new`: constructs a facade from a token and options.  The
fresh transport handle built by `HyperClient::builder(...)` is an
external effect, so the handle value is taken as an explicit argument;
everything else follows the source: a placeholder configuration is
built (base path and bearer token to be set by `with_token`), then
`with_token` finishes construction. -/
def Svix.new (token : String) (options : Option SvixOptions)
    (client : HyperClient) : Svix :=
  let options := options.getD SvixOptions.default
  let cfg : Configuration :=
    { user_agent := some ("svix-libs/" ++ CRATE_VERSION ++ "/rust")
      client := client
      timeout := options.timeout
      base_path := ""
      bearer_access_token := none }
  let svix : Svix := { cfg := cfg, server_url := options.server_url }
  svix.with_token token

/-- `PostOptions`, the general per-call options of write operations. -/
structure PostOptions where
  idempotency_key : Option String := none
  deriving DecidableEq, Repr

/-- `#[derive(Default)]` on `PostOptions`. -/
def PostOptions.default : PostOptions := {}

/-- `ApplicationListOptions`. -/
structure ApplicationListOptions where
  iterator : Option String := none
  limit : Option Int := none
  order : Option Ordering := none
  deriving DecidableEq, Repr

/-- `#[derive(Default)]` on `ApplicationListOptions`. -/
def ApplicationListOptions.default : ApplicationListOptions := {}

/-- `application_api::V1PeriodApplicationPeriodListParams` (fields as
named at its exhaustive construction site in `Application::list`). -/
structure V1PeriodApplicationPeriodListParams where
  iterator : Option String
  limit : Option Int
  order : Option Ordering
  deriving DecidableEq, Repr

/-- `application_api::V1PeriodApplicationPeriodCreateParams`. -/
structure V1PeriodApplicationPeriodCreateParams where
  application_in : ApplicationIn
  idempotency_key : Option String
  get_if_exists : Option Bool
  deriving DecidableEq, Repr

/-- `application_api::V1PeriodApplicationPeriodUpdateParams`. -/
structure V1PeriodApplicationPeriodUpdateParams where
  app_id : String
  application_in : ApplicationIn
  deriving DecidableEq, Repr

/-- `application_api::V1PeriodApplicationPeriodPatchParams`. -/
structure V1PeriodApplicationPeriodPatchParams where
  app_id : String
  application_patch : ApplicationPatch
  deriving DecidableEq, Repr

/-- Wire-parameter construction of `Application::list`. -/
def Application.listParams (options : Option ApplicationListOptions) :
    V1PeriodApplicationPeriodListParams :=
  let o := options.getD ApplicationListOptions.default
  { iterator := o.iterator
    limit := o.limit
    order := o.order }

/-- Wire-parameter construction of `Application::create`
(`get_if_exists: None`). -/
def Application.createParams (application_in : ApplicationIn)
    (options : Option PostOptions) : V1PeriodApplicationPeriodCreateParams :=
  let o := options.getD PostOptions.default
  { application_in := application_in
    idempotency_key := o.idempotency_key
    get_if_exists := none }

/-- Wire-parameter construction of `Application::get_or_create`
(`get_if_exists: Some(true)`). -/
def Application.getOrCreateParams (application_in : ApplicationIn)
    (options : Option PostOptions) : V1PeriodApplicationPeriodCreateParams :=
  let o := options.getD PostOptions.default
  { application_in := application_in
    idempotency_key := o.idempotency_key
    get_if_exists := some true }

/-- Wire-parameter construction of `Application::update`; the
`Option<PostOptions>` argument is bound to `_` in the source and never
read. -/
def Application.updateParams (app_id : String)
    (application_in : ApplicationIn) (_options : Option PostOptions) :
    V1PeriodApplicationPeriodUpdateParams :=
  { app_id := app_id
    application_in := application_in }

/-- Wire-parameter construction of `Application::patch`; the
`Option<PostOptions>` argument is bound to `_` in the source and never
read. -/
def Application.patchParams (app_id : String)
    (application_patch : ApplicationPatch) (_options : Option PostOptions) :
    V1PeriodApplicationPeriodPatchParams :=
  { app_id := app_id
    application_patch := application_patch }

/-- `endpoint_api::V1PeriodEndpointPeriodCreateParams`. -/
structure V1PeriodEndpointPeriodCreateParams where
  app_id : String
  endpoint_in : EndpointIn
  idempotency_key : Option String
  deriving DecidableEq, Repr

/-- Wire-parameter construction of `Endpoint::create`. -/
def Endpoint.createParams (app_id : String) (endpoint_in : EndpointIn)
    (options : Option PostOptions) : V1PeriodEndpointPeriodCreateParams :=
  let o := options.getD PostOptions.default
  { app_id := app_id
    endpoint_in := endpoint_in
    idempotency_key := o.idempotency_key }

/-- `MessageListOptions`. -/
structure MessageListOptions where
  iterator : Option String := none
  limit : Option Int := none
  event_types : Option (List String) := none
  before : Option String := none
  after : Option String := none
  channel : Option String := none
  with_content : Option Bool := none
  tag : Option String := none
  deriving DecidableEq, Repr

/-- `#[derive(Default)]` on `MessageListOptions`. -/
def MessageListOptions.default : MessageListOptions := {}

/-- `message_api::V1PeriodMessagePeriodListParams`. -/
structure V1PeriodMessagePeriodListParams where
  app_id : String
  iterator : Option String
  limit : Option Int
  event_types : Option (List String)
  before : Option String
  after : Option String
  channel : Option String
  with_content : Option Bool
  tag : Option String
  deriving DecidableEq, Repr

/-- Wire-parameter construction of `Message::list`. -/
def Message.listParams (app_id : String)
    (options : Option MessageListOptions) : V1PeriodMessagePeriodListParams :=
  let o := options.getD MessageListOptions.default
  { app_id := app_id
    iterator := o.iterator
    limit := o.limit
    event_types := o.event_types
    before := o.before
    after := o.after
    channel := o.channel
    with_content := o.with_content
    tag := o.tag }

/-- `MessageAttemptListOptions` (shared by `list_by_msg`,
`list_attempted_messages` and `list_attempts_for_endpoint`). -/
structure MessageAttemptListOptions where
  iterator : Option String := none
  limit : Option Int := none
  event_types : Option (List String) := none
  before : Option String := none
  after : Option String := none
  channel : Option String := none
  tag : Option String := none
  status : Option MessageStatus := none
  status_code_class : Option StatusCodeClass := none
  with_content : Option Bool := none
  endpoint_id : Option String := none
  deriving DecidableEq, Repr

/-- `#[derive(Default)]` on `MessageAttemptListOptions`. -/
def MessageAttemptListOptions.default : MessageAttemptListOptions := {}

/-- `MessageAttemptListByEndpointOptions`. -/
structure MessageAttemptListByEndpointOptions where
  iterator : Option String := none
  limit : Option Int := none
  event_types : Option (List String) := none
  before : Option String := none
  after : Option String := none
  channel : Option String := none
  tag : Option String := none
  status : Option MessageStatus := none
  status_code_class : Option StatusCodeClass := none
  with_content : Option Bool := none
  with_msg : Option Bool := none
  endpoint_id : Option String := none
  deriving DecidableEq, Repr

/-- `#[derive(Default)]` on `MessageAttemptListByEndpointOptions`. -/
def MessageAttemptListByEndpointOptions.default :
    MessageAttemptListByEndpointOptions := {}

/-- `message_attempt_api::V1PeriodMessageAttemptPeriodListByEndpointParams`.
Note: it has no `endpoint_id` option slot beyond the required path
parameter, and no exhaustive-literal field for the options struct's
`endpoint_id`. -/
structure V1PeriodMessageAttemptPeriodListByEndpointParams where
  app_id : String
  endpoint_id : String
  iterator : Option String
  limit : Option Int
  event_types : Option (List String)
  before : Option String
  after : Option String
  channel : Option String
  tag : Option String
  status : Option MessageStatus
  status_code_class : Option StatusCodeClass
  with_content : Option Bool
  with_msg : Option Bool
  deriving DecidableEq, Repr

/-- Wire-parameter construction of `MessageAttempt::list_by_endpoint`;
the source destructures the options with `endpoint_id: _` and uses the
positional `endpoint_id` argument for the wire record. -/
def MessageAttempt.listByEndpointParams (app_id endpoint_id : String)
    (options : Option MessageAttemptListByEndpointOptions) :
    V1PeriodMessageAttemptPeriodListByEndpointParams :=
  let o := options.getD MessageAttemptListByEndpointOptions.default
  { app_id := app_id
    endpoint_id := endpoint_id
    iterator := o.iterator
    limit := o.limit
    event_types := o.event_types
    before := o.before
    after := o.after
    channel := o.channel
    tag := o.tag
    status := o.status
    status_code_class := o.status_code_class
    with_content := o.with_content
    with_msg := o.with_msg }

/-- `message_attempt_api::V1PeriodMessageAttemptPeriodListAttemptedMessagesParams`.
Its exhaustive construction site in `api.rs` names no
`status_code_class` field, so the struct has none. -/
structure V1PeriodMessageAttemptPeriodListAttemptedMessagesParams where
  app_id : String
  endpoint_id : String
  iterator : Option String
  limit : Option Int
  before : Option String
  after : Option String
  channel : Option String
  tag : Option String
  status : Option MessageStatus
  with_content : Option Bool
  event_types : Option (List String)
  deriving DecidableEq, Repr

/-- Wire-parameter construction of
`MessageAttempt::list_attempted_messages`; the source destructures the
options with `status_code_class: _` and `endpoint_id: _`, so those two
option fields never reach the wire record. -/
def MessageAttempt.listAttemptedMessagesParams (app_id endpoint_id : String)
    (options : Option MessageAttemptListOptions) :
    V1PeriodMessageAttemptPeriodListAttemptedMessagesParams :=
  let o := options.getD MessageAttemptListOptions.default
  { app_id := app_id
    endpoint_id := endpoint_id
    iterator := o.iterator
    limit := o.limit
    before := o.before
    after := o.after
    channel := o.channel
    tag := o.tag
    status := o.status
    with_content := o.with_content
    event_types := o.event_types }

/-- `message_attempt_api::V1PeriodMessageAttemptPeriodListByEndpointDeprecatedParams`.
Its exhaustive construction site in `api.rs` names neither a
`status_code_class` nor a `with_content` field, so the struct has
neither. -/
structure V1PeriodMessageAttemptPeriodListByEndpointDeprecatedParams where
  app_id : String
  endpoint_id : String
  msg_id : String
  iterator : Option String
  limit : Option Int
  event_types : Option (List String)
  before : Option String
  after : Option String
  channel : Option String
  tag : Option String
  status : Option MessageStatus
  deriving DecidableEq, Repr

/-- Wire-parameter construction of
`MessageAttempt::list_attempts_for_endpoint`; the source destructures
the options with `status_code_class: _`, `endpoint_id: _` and
`with_content: _`, so those three option fields never reach the wire
record. -/
def MessageAttempt.listAttemptsForEndpointParams
    (app_id msg_id endpoint_id : String)
    (options : Option MessageAttemptListOptions) :
    V1PeriodMessageAttemptPeriodListByEndpointDeprecatedParams :=
  let o := options.getD MessageAttemptListOptions.default
  { app_id := app_id
    endpoint_id := endpoint_id
    msg_id := msg_id
    iterator := o.iterator
    limit := o.limit
    event_types := o.event_types
    before := o.before
    after := o.after
    channel := o.channel
    tag := o.tag
    status := o.status }

/-- `AggregateAppStatsOptions`: the one required structured argument of
`Statistics::aggregate_app_stats` — `since` and `until` are plain
(non-optional) strings and only `app_ids` is optional. -/
structure AggregateAppStatsOptions where
  app_ids : Option (List String)
  since : String
  «until» : String
  deriving DecidableEq, Repr

/-- `models::AppUsageStatsIn`, the wire body of `aggregate_app_stats`
(fields as named at its exhaustive construction site in `api.rs`). -/
structure AppUsageStatsIn where
  app_ids : Option (List String)
  since : String
  «until» : String
  deriving DecidableEq, Repr

/-- `statistics_api::V1PeriodStatisticsPeriodAggregateAppStatsParams`. -/
structure V1PeriodStatisticsPeriodAggregateAppStatsParams where
  app_usage_stats_in : AppUsageStatsIn
  idempotency_key : Option String
  deriving DecidableEq, Repr

/-- Wire-parameter construction of `Statistics::aggregate_app_stats`:
the required structured argument is copied into the `AppUsageStatsIn`
body, and the idempotency key is taken from the separate optional
`PostOptions`. -/
def Statistics.aggregateAppStatsParams (o : AggregateAppStatsOptions)
    (options : Option PostOptions) :
    V1PeriodStatisticsPeriodAggregateAppStatsParams :=
  let opts := options.getD PostOptions.default
  { app_usage_stats_in :=
      { app_ids := o.app_ids
        since := o.since
        «until» := o.«until» }
    idempotency_key := opts.idempotency_key }

/-- C1: for every token, a client constructed without an explicit
server-URL override resolves its base URL from the final `.`-separated
segment of the token (`us`, `eu`, `in` select the regional hosts, any
other final segment — including a token with no `.` — selects the
default host), and a client constructed with an explicit override uses
that override regardless of the token; including the spec's concrete
scenarios for `secret.us`, `secret` and an overridden `secret.eu`. -/
theorem C1_base_url_resolution (token : String) (client : HyperClient) :
    ((Svix.new token none client).cfg.base_path =
      match (stringSplit token '.').getLast? with
      | some "us" => "https://api.us.svix.com"
      | some "eu" => "https://api.eu.svix.com"
      | some "in" => "https://api.in.svix.com"
      | _ => "https://api.svix.com") ∧
    (∀ debug timeout,
      (Svix.new token
          (some { debug := debug, server_url := none, timeout := timeout })
          client).cfg.base_path =
        (Svix.new token none client).cfg.base_path) ∧
    (∀ url debug timeout,
      (Svix.new token
          (some { debug := debug, server_url := some url, timeout := timeout })
          client).cfg.base_path = url) ∧
    (Svix.new "secret.us" none client).cfg.base_path =
      "https://api.us.svix.com" ∧
    (Svix.new "secret" none client).cfg.base_path = "https://api.svix.com" ∧
    (Svix.new "secret.eu"
        (some { debug := false, server_url := some "https://custom.example",
                timeout := none })
        client).cfg.base_path = "https://custom.example" :=
  ⟨rfl, fun _ _ => rfl, fun _ _ _ => rfl, rfl, rfl, rfl⟩

/-- C2: re-tokening a facade with `with_token` preserves the server-URL
override, the timeout, the user-agent and the transport handle identity,
sets the bearer token to the new token, and re-resolves the base path
from the pinned override when present or from the new token otherwise.
The embedding is pure because the Rust method takes `&self` and builds a
fresh `Arc<Configuration>`, so the original facade's configuration is
never mutated. -/
theorem C2_with_token_frame (s : Svix) (token : String) :
    (s.with_token token).server_url = s.server_url ∧
    (s.with_token token).cfg.timeout = s.cfg.timeout ∧
    (s.with_token token).cfg.user_agent = s.cfg.user_agent ∧
    (s.with_token token).cfg.client = s.cfg.client ∧
    (s.with_token token).cfg.bearer_access_token = some token ∧
    (s.with_token token).cfg.base_path =
      s.server_url.getD
        (match (stringSplit token '.').getLast? with
         | some "us" => "https://api.us.svix.com"
         | some "eu" => "https://api.eu.svix.com"
         | some "in" => "https://api.in.svix.com"
         | _ => "https://api.svix.com") :=
  ⟨rfl, rfl, rfl, rfl, rfl, rfl⟩

/-- C3 as stated is false: setting `status_code_class`, `with_content`
and `endpoint_id` in the options of
`MessageAttempt::list_attempts_for_endpoint` (respectively
`status_code_class` and `endpoint_id` for
`MessageAttempt::list_attempted_messages`) produces a wire-parameter
record identical to the one produced with those fields unset — the set
fields are silently dropped, never reaching the wire record (whose type
has no slot for them). -/
theorem C3_dropped_fields_counterexample :
    MessageAttempt.listAttemptsForEndpointParams "app" "msg" "ep"
        (some { MessageAttemptListOptions.default with
                  status_code_class := some ⟨0⟩
                  with_content := some true
                  endpoint_id := some "other" }) =
      MessageAttempt.listAttemptsForEndpointParams "app" "msg" "ep"
        (some MessageAttemptListOptions.default) ∧
    MessageAttempt.listAttemptedMessagesParams "app" "ep"
        (some { MessageAttemptListOptions.default with
                  status_code_class := some ⟨0⟩
                  endpoint_id := some "other" }) =
      MessageAttempt.listAttemptedMessagesParams "app" "ep"
        (some MessageAttemptListOptions.default) :=
  ⟨rfl, rfl⟩

/-- C3 amended: the merge into the wire-parameter record is a pure
field-by-field copy of exactly those option fields that have a slot in
the operation's wire record; `list_attempts_for_endpoint` discards the
`status_code_class`, `with_content` and `endpoint_id` option fields, and
`list_attempted_messages` discards `status_code_class` and
`endpoint_id` (the wire `endpoint_id` is the positional argument in
both). -/
theorem C3_field_copy (app_id msg_id endpoint_id : String)
    (o : MessageAttemptListOptions) :
    (let p := MessageAttempt.listAttemptsForEndpointParams app_id msg_id
        endpoint_id (some o)
     p.iterator = o.iterator ∧ p.limit = o.limit ∧
     p.event_types = o.event_types ∧ p.before = o.before ∧
     p.after = o.after ∧ p.channel = o.channel ∧ p.tag = o.tag ∧
     p.status = o.status ∧ p.app_id = app_id ∧ p.msg_id = msg_id ∧
     p.endpoint_id = endpoint_id) ∧
    (∀ scc wc eid,
      MessageAttempt.listAttemptsForEndpointParams app_id msg_id endpoint_id
          (some { o with status_code_class := scc, with_content := wc,
                         endpoint_id := eid }) =
        MessageAttempt.listAttemptsForEndpointParams app_id msg_id endpoint_id
          (some o)) ∧
    (let q := MessageAttempt.listAttemptedMessagesParams app_id endpoint_id
        (some o)
     q.iterator = o.iterator ∧ q.limit = o.limit ∧
     q.event_types = o.event_types ∧ q.before = o.before ∧
     q.after = o.after ∧ q.channel = o.channel ∧ q.tag = o.tag ∧
     q.status = o.status ∧ q.with_content = o.with_content ∧
     q.app_id = app_id ∧ q.endpoint_id = endpoint_id) ∧
    (∀ scc eid,
      MessageAttempt.listAttemptedMessagesParams app_id endpoint_id
          (some { o with status_code_class := scc, endpoint_id := eid }) =
        MessageAttempt.listAttemptedMessagesParams app_id endpoint_id
          (some o)) :=
  ⟨⟨rfl, rfl, rfl, rfl, rfl, rfl, rfl, rfl, rfl, rfl, rfl⟩,
   fun _ _ _ => rfl,
   ⟨rfl, rfl, rfl, rfl, rfl, rfl, rfl, rfl, rfl, rfl, rfl⟩,
   fun _ _ => rfl⟩

/-- C4: for identical inputs, `Application::create` and
`Application::get_or_create` build wire-parameter records that differ
only in the forwarded `get_if_exists` flag — absent for `create`,
`Some(true)` for `get_or_create` — with the body and the idempotency key
identical. -/
theorem C4_create_vs_get_or_create (application_in : ApplicationIn)
    (options : Option PostOptions) :
    (Application.createParams application_in options).get_if_exists = none ∧
    (Application.getOrCreateParams application_in options).get_if_exists =
      some true ∧
    (Application.getOrCreateParams application_in options).application_in =
      (Application.createParams application_in options).application_in ∧
    (Application.getOrCreateParams application_in options).idempotency_key =
      (Application.createParams application_in options).idempotency_key :=
  ⟨rfl, rfl, rfl, rfl⟩

/-- C5: a caller-supplied idempotency key is forwarded verbatim as the
wire idempotency parameter of `Application::create` and
`Endpoint::create`, and the parameter is absent when no key (or no
options struct) is supplied. -/
theorem C5_idempotency_forwarding (k : String)
    (application_in : ApplicationIn) (app_id : String)
    (endpoint_in : EndpointIn) :
    (Application.createParams application_in
        (some { idempotency_key := some k })).idempotency_key = some k ∧
    (Application.createParams application_in
        (some { idempotency_key := none })).idempotency_key = none ∧
    (Application.createParams application_in none).idempotency_key = none ∧
    (Endpoint.createParams app_id endpoint_in
        (some { idempotency_key := some k })).idempotency_key = some k ∧
    (Endpoint.createParams app_id endpoint_in
        (some { idempotency_key := none })).idempotency_key = none ∧
    (Endpoint.createParams app_id endpoint_in none).idempotency_key = none :=
  ⟨rfl, rfl, rfl, rfl, rfl, rfl⟩

/-- C6: calling `Application::list` and `Message::list` with no options
struct, or with the all-defaults options struct, yields a wire record in
which the iterator, limit, order and every filter field are absent
(`none`), with no sentinel substituted. -/
theorem C6_list_defaults_absent (app_id : String) :
    Application.listParams none =
      { iterator := none, limit := none, order := none } ∧
    Application.listParams (some ApplicationListOptions.default) =
      Application.listParams none ∧
    Message.listParams app_id none =
      { app_id := app_id, iterator := none, limit := none,
        event_types := none, before := none, after := none,
        channel := none, with_content := none, tag := none } ∧
    Message.listParams app_id (some MessageListOptions.default) =
      Message.listParams app_id none :=
  ⟨rfl, rfl, rfl, rfl⟩

/-- C7: the wire-parameter records of `Application::update` and
`Application::patch` are independent of the supplied `PostOptions`
value — any two options values (any idempotency key, none, or no struct
at all) yield identical wire records for the same identifiers and
body. -/
theorem C7_update_ignores_post_options (app_id : String)
    (application_in : ApplicationIn) (application_patch : ApplicationPatch)
    (o1 o2 : Option PostOptions) :
    Application.updateParams app_id application_in o1 =
      Application.updateParams app_id application_in o2 ∧
    Application.patchParams app_id application_patch o1 =
      Application.patchParams app_id application_patch o2 :=
  ⟨rfl, rfl⟩

/-- C8: the default options carry a 15-second timeout, constructing a
client with no options (or the default options) yields a configuration
whose timeout is exactly 15 seconds, and constructing with an options
struct whose timeout is explicitly `None` yields a configuration with no
timeout — no substituted default. -/
theorem C8_timeout_defaults (token : String) (client : HyperClient)
    (debug : Bool) (server_url : Option String) :
    SvixOptions.default.timeout = some (Duration.from_secs 15) ∧
    (Svix.new token none client).cfg.timeout =
      some (Duration.from_secs 15) ∧
    (Svix.new token (some SvixOptions.default) client).cfg.timeout =
      some (Duration.from_secs 15) ∧
    (Svix.new token
        (some { debug := debug, server_url := server_url, timeout := none })
        client).cfg.timeout = none :=
  ⟨rfl, rfl, rfl, rfl⟩

/-- C9: `Statistics::aggregate_app_stats` takes the required structured
`AggregateAppStatsOptions` argument (optional `app_ids`, required
`since` and `until` strings); the wire body carries exactly the supplied
`app_ids`, `since` and `until`, and the idempotency key comes from the
separate optional `PostOptions`. -/
theorem C9_aggregate_app_stats (app_ids : Option (List String))
    (su uu k : String) :
    (let p := Statistics.aggregateAppStatsParams
        { app_ids := app_ids, since := su, «until» := uu } none
     p.app_usage_stats_in.app_ids = app_ids ∧
     p.app_usage_stats_in.since = su ∧
     p.app_usage_stats_in.«until» = uu ∧
     p.idempotency_key = none) ∧
    (Statistics.aggregateAppStatsParams
        { app_ids := app_ids, since := su, «until» := uu }
        (some { idempotency_key := some k })).idempotency_key = some k :=
  ⟨⟨rfl, rfl, rfl, rfl⟩, rfl⟩

/-- C10: `MessageAttempt::list_by_endpoint` ignores the `endpoint_id`
field of its options struct entirely — the wire `endpoint_id` always
equals the positional argument, and changing the option field to any
value leaves the whole wire record unchanged. -/
theorem C10_list_by_endpoint_positional_endpoint_id
    (app_id endpoint_id : String)
    (o : MessageAttemptListByEndpointOptions) (eid : Option String) :
    (MessageAttempt.listByEndpointParams app_id endpoint_id
        (some o)).endpoint_id = endpoint_id ∧
    (MessageAttempt.listByEndpointParams app_id endpoint_id
        none).endpoint_id = endpoint_id ∧
    MessageAttempt.listByEndpointParams app_id endpoint_id
        (some { o with endpoint_id := eid }) =
      MessageAttempt.listByEndpointParams app_id endpoint_id (some o) :=
  ⟨rfl, rfl, rfl⟩

end SvixApi
